import Mathlib

/-!
Verification of the mit-notes backend decision logic (server/server.js):
the keyword moderation filter, the upload pipeline (multer file filter,
blob write, moderation rollback, metadata persistence), the smart-search
pipeline with its external-knowledge fallback, and the recent-notes
listing. Text values are shallowly embedded as lists of characters;
MongoDB and the filesystem are represented by explicit in-memory state.
-/

namespace MitNotes

/-- JavaScript strings are embedded as lists of characters. -/
abbrev Str := List Char

/-- JavaScript String.prototype.toLowerCase, restricted to the ASCII
range actually exercised by the denylist. -/
def toLowerStr (s : Str) : Str := s.map Char.toLower

/-- The moderation denylist, server.js line 32. -/
def BANNED_KEYWORDS : List Str :=
  ["gore".data, "violence".data, "nude".data, "nsfw".data, "xxx".data,
   "kill".data, "blood".data]

/-- checkContentSafety, server.js lines 34-39. A null/undefined or empty
text is safe (the JavaScript guard is on falsiness of the text); otherwise
the lowercased text is scanned for each banned keyword as a substring and
the function returns true exactly when no banned word occurs. The
JavaScript lowerText.includes(word) is the substring relation <:+: . -/
def checkContentSafety (text : Option Str) : Bool :=
  match text with
  | none => true
  | some t =>
    if t.isEmpty then true
    else
      let lowerText := toLowerStr t
      !(BANNED_KEYWORDS.any fun word => decide (word <:+: lowerText))

/-- A Note metadata record, following the mongoose NoteSchema of
server.js lines 17-25: branch, subject, topic required strings,
description optional, filePath required, originalName, and the
server-assigned uploadDate (a millisecond timestamp, embedded as Nat). -/
structure Note where
  branch : Str
  subject : Str
  topic : Str
  description : Option Str
  filePath : Str
  originalName : Str
  uploadDate : Nat
deriving DecidableEq

/-- The part of a multer file object used by the handler: the MIME type
checked by the fileFilter, the original client-side filename, and the
path under which the disk storage engine wrote the blob. -/
structure FileInfo where
  mimetype : Str
  originalname : Str
  path : Str
deriving DecidableEq

/-- An upload request: the optional file payload plus the four text
fields destructured from req.body in server.js line 74 (absent fields are
none, matching undefined). -/
structure UploadRequest where
  file : Option FileInfo
  branch : Option Str
  subject : Option Str
  topic : Option Str
  description : Option Str
deriving DecidableEq

/-- The joint state of the two external stores: the uploads directory
(blob paths on disk) and the MongoDB notes collection. -/
structure StoreState where
  blobs : List Str
  notes : List Note
deriving DecidableEq

/-- The distinct responses of the upload route: the fileFilter rejection
of a non-PDF payload, the 400 moderation rejection, the 400 missing-file
rejection, the 201 success, and the catch-all 500 on persistence or
schema-validation failure (server.js lines 58-101). -/
inductive UploadResponse
  | fileTypeError
  | moderationError
  | noFileError
  | created
  | serverError
deriving DecidableEq

/-- The MIME type accepted by the fileFilter, server.js line 61. -/
def applicationPdf : Str := "application/pdf".data

/-- req.file.path.replace of backslash by slash, server.js line 92. -/
def replaceBackslash (s : Str) : Str :=
  s.map fun c => if c = '\\' then '/' else c

/-- The body of the upload route handler, server.js lines 72-101, run
after multer has already stored any accepted file: first the moderation
check over topic and description (deleting the just-written blob on
rejection, when a file exists), then the missing-file check, then the
Note construction and save. The save enforces the mongoose NoteSchema
required-field validation (server.js lines 17-25): branch, subject and
topic must be present, non-empty strings (mongoose treats an absent or
empty required String as missing), a failure surfacing through the
catch-all as a 500. -/
def uploadHandler (req : UploadRequest) (now : Nat) (st : StoreState) :
    UploadResponse × StoreState :=
  if !(checkContentSafety req.topic) || !(checkContentSafety req.description) then
    match req.file with
    | some f => (.moderationError, { st with blobs := st.blobs.erase f.path })
    | none => (.moderationError, st)
  else
    match req.file with
    | none => (.noFileError, st)
    | some f =>
      match req.branch, req.subject, req.topic with
      | some b, some s, some t =>
        if b.isEmpty || s.isEmpty || t.isEmpty then (.serverError, st)
        else
          (.created,
            { st with
                notes :=
                  { branch := b
                    subject := s
                    topic := t
                    description := req.description
                    filePath := replaceBackslash f.path
                    originalName := f.originalname
                    uploadDate := now } :: st.notes })
      | _, _, _ => (.serverError, st)

/-- The full upload pipeline. The MIME test is the fileFilter of
server.js lines 60-66. Modelled from the spec: the surrounding multer
dispatch, which is library code outside this repository — a file whose
MIME type fails the filter is rejected before any blob is written and
before the handler runs (an unsupported-file-type error, HTTP 4xx, with
no blob retained), while an accepted file is written to disk by the
storage engine before the handler body executes. -/
def uploadPipeline (req : UploadRequest) (now : Nat) (st : StoreState) :
    UploadResponse × StoreState :=
  match req.file with
  | some f =>
    if f.mimetype = applicationPdf then
      uploadHandler req now { st with blobs := f.path :: st.blobs }
    else
      (.fileTypeError, st)
  | none => uploadHandler req now st

/-- The simulated external-knowledge record, server.js lines 118-122. -/
structure ExternalKnowledge where
  source : Str
  title : Str
  summary : Str
deriving DecidableEq

/-- The search response shape of server.js line 125. -/
structure SearchResponse where
  internal : List Note
  external : Option ExternalKnowledge
deriving DecidableEq

/-- req.query.branch or the default, server.js line 121: the JavaScript
short-circuit defaults both an absent and an empty branch parameter to
the literal engineering. -/
def branchOrDefault (branch : Option Str) : Str :=
  match branch with
  | some b => if b.isEmpty then "engineering".data else b
  | none => "engineering".data

/-- The fixed text of the summary template before the query. -/
def summaryHead : Str :=
  "We found limited local PDFs, but here is what you need to know about ".data

/-- The fixed text of the summary template between query and branch. -/
def summaryMid : Str :=
  ". This topic usually covers foundational principles in ".data

/-- The fixed text of the summary template after the branch. -/
def summaryTail : Str :=
  ". Important questions often involve derivations and practical applications.".data

/-- The fallback record synthesized when internal results are sparse,
server.js lines 118-122, with its template strings. -/
def externalKnowledgeFor (query : Str) (branch : Option Str) : ExternalKnowledge :=
  { source := "External Knowledge Base".data
    title := "Concept Summary: ".data ++ query
    summary := summaryHead ++ query ++ summaryMid ++ branchOrDefault branch ++ summaryTail }

/-- The search route, server.js lines 104-130. The Note Store full-text
query is an external dependency, passed in as textQuery (its native
relevance ranking is opaque); the limit of 10 is the cap applied by the
route. The second component counts how many times the store was queried,
so that the short-circuit on a falsy q (absent or empty) is observable. -/
def searchPipeline (q branch : Option Str) (textQuery : Str → List Note) :
    SearchResponse × Nat :=
  match q with
  | none => ({ internal := [], external := none }, 0)
  | some query =>
    if query.isEmpty then ({ internal := [], external := none }, 0)
    else
      let internalResults := (textQuery query).take 10
      let externalKnowledge :=
        if internalResults.length < 3 then some (externalKnowledgeFor query branch)
        else none
      ({ internal := internalResults, external := externalKnowledge }, 1)

/-- The sort key of the recent-notes listing, server.js line 135: note a
precedes note b when the uploadDate of b is at most that of a
(descending order, most recent first). -/
def byDateDesc (a b : Note) : Prop := b.uploadDate ≤ a.uploadDate

instance : DecidableRel byDateDesc := fun a b => Nat.decLe b.uploadDate a.uploadDate

instance : IsTotal Note byDateDesc :=
  ⟨fun a b => Nat.le_total b.uploadDate a.uploadDate⟩

instance : IsTrans Note byDateDesc :=
  ⟨fun _ _ _ hab hbc => Nat.le_trans hbc hab⟩

/-- The recent-notes listing, server.js lines 133-140: the store contents
sorted by descending uploadDate, capped at 20. The MongoDB sort is an
external dependency modelled by a stable comparison sort on the
descending-date relation. -/
def listNotes (store : List Note) : List Note :=
  (List.insertionSort byDateDesc store).take 20

/-- Claim C2: checkContentSafety returns false on every text containing a
denylisted term as a case-insensitive substring, returns true on every
text free of denylisted substrings, and returns true on null and on the
empty string. -/
theorem checkContentSafety_spec (t : Str) :
    ((∃ w ∈ BANNED_KEYWORDS, w <:+: toLowerStr t) →
      checkContentSafety (some t) = false) ∧
    ((∀ w ∈ BANNED_KEYWORDS, ¬ w <:+: toLowerStr t) →
      checkContentSafety (some t) = true) ∧
    checkContentSafety none = true ∧
    checkContentSafety (some []) = true := by
  refine ⟨?_, ?_, rfl, rfl⟩
  · rintro ⟨w, hw, hinf⟩
    have hw_ne : w ≠ [] := by
      intro h
      rw [h] at hw
      revert hw
      decide
    match t with
    | [] => exact absurd (List.sublist_nil.mp hinf.sublist) hw_ne
    | c :: t' =>
      simp only [checkContentSafety, List.isEmpty_cons, Bool.false_eq_true,
        if_false, Bool.not_eq_false', List.any_eq_true, decide_eq_true_eq]
      exact ⟨w, hw, hinf⟩
  · intro h
    match t with
    | [] => rfl
    | c :: t' =>
      simp only [checkContentSafety, List.isEmpty_cons, Bool.false_eq_true,
        if_false, Bool.not_eq_true', Bool.not_eq_false, List.any_eq_false,
        decide_eq_true_eq]
      exact fun w hw => h w hw

/-- Witness for C2: a text containing VIOLENCE in capitals is flagged, a
clean text passes. -/
theorem checkContentSafety_spec_witness :
    checkContentSafety (some "Graphic VIOLENCE ahead".data) = false ∧
    checkContentSafety (some "fluid mechanics".data) = true := by
  constructor
  · exact (checkContentSafety_spec "Graphic VIOLENCE ahead".data).1
      ⟨"violence".data, by decide, by decide⟩
  · exact (checkContentSafety_spec "fluid mechanics".data).2.1 (by decide)

/-- Claim C3: when the file payload is a PDF and topic or description
fails moderation, the pipeline deletes the just-written blob, persists no
Note record, and answers with the 4xx moderation error: the final state
equals the initial one, and from the post-blob-write state the handler
removes exactly the written blob. -/
theorem upload_moderation_rollback (req : UploadRequest) (f : FileInfo)
    (now : Nat) (st : StoreState)
    (hfile : req.file = some f) (hmime : f.mimetype = applicationPdf)
    (hmod : checkContentSafety req.topic = false ∨
      checkContentSafety req.description = false) :
    uploadPipeline req now st = (UploadResponse.moderationError, st) ∧
    uploadHandler req now { blobs := f.path :: st.blobs, notes := st.notes } =
      (UploadResponse.moderationError, st) := by
  have hcond : (!(checkContentSafety req.topic) ||
      !(checkContentSafety req.description)) = true := by
    rcases hmod with h | h <;> simp [h]
  have hhandler : uploadHandler req now
      { blobs := f.path :: st.blobs, notes := st.notes } =
      (UploadResponse.moderationError, st) := by
    simp [uploadHandler, hcond, hfile]
  refine ⟨?_, hhandler⟩
  simpa [uploadPipeline, hfile, hmime] using hhandler

/-- A moderation-rejected upload request with a PDF payload. -/
def fileC3 : FileInfo :=
  { mimetype := "application/pdf".data
    originalname := "notes.pdf".data
    path := "uploads/1700000000000-notes.pdf".data }

/-- The request carrying fileC3 whose topic fails moderation. -/
def reqC3 : UploadRequest :=
  { file := some fileC3
    branch := some "Mechanical".data
    subject := some "Anatomy".data
    topic := some "Blood circulation".data
    description := some "intro chapter".data }

/-- Witness for C3: a concrete rejected upload leaves both stores
unchanged. -/
theorem upload_moderation_rollback_witness :
    uploadPipeline reqC3 7 ⟨[], []⟩ = (UploadResponse.moderationError, ⟨[], []⟩) :=
  (upload_moderation_rollback reqC3 fileC3 7 ⟨[], []⟩ rfl rfl
    (Or.inl (by decide))).1

/-- Claim C4 (amended): the handler runs the moderation check before the
missing-file check, so an upload lacking a file gets the 4xx missing-file
error exactly when topic and description pass moderation; when either
fails moderation, the moderation error is returned instead (with no state
change in either case). -/
theorem upload_missing_file_after_moderation (req : UploadRequest)
    (now : Nat) (st : StoreState) (hfile : req.file = none) :
    (checkContentSafety req.topic = true →
      checkContentSafety req.description = true →
      uploadPipeline req now st = (UploadResponse.noFileError, st)) ∧
    ((checkContentSafety req.topic = false ∨
        checkContentSafety req.description = false) →
      uploadPipeline req now st = (UploadResponse.moderationError, st)) := by
  constructor
  · intro h1 h2
    simp [uploadPipeline, uploadHandler, hfile, h1, h2]
  · intro hmod
    have hcond : (!(checkContentSafety req.topic) ||
        !(checkContentSafety req.description)) = true := by
      rcases hmod with h | h <;> simp [h]
    simp [uploadPipeline, uploadHandler, hfile, hcond]

/-- A fileless request whose topic fails moderation. -/
def reqC4 : UploadRequest :=
  { file := none
    branch := some "Computer".data
    subject := some "Operating Systems".data
    topic := some "kill signals".data
    description := none }

/-- Counterexample for C4 as stated: a request lacking a file whose topic
fails moderation is answered with the moderation error, not with the
missing-file error, so the missing-file check is not performed first. -/
theorem upload_missing_file_order_counterexample :
    (uploadPipeline reqC4 0 ⟨[], []⟩).1 = UploadResponse.moderationError ∧
    (uploadPipeline reqC4 0 ⟨[], []⟩).1 ≠ UploadResponse.noFileError := by
  decide

/-- Witness for the amended C4: a concrete fileless, moderation-safe
request gets the missing-file error. -/
theorem upload_missing_file_after_moderation_witness :
    uploadPipeline
      { file := none
        branch := some "Civil".data
        subject := some "Fluid Mechanics".data
        topic := some "Bernoulli".data
        description := none } 0 ⟨[], []⟩ = (UploadResponse.noFileError, ⟨[], []⟩) :=
  (upload_missing_file_after_moderation _ 0 ⟨[], []⟩ rfl).1 (by decide) (by decide)

/-- Claim C5: a file payload whose MIME type is not application/pdf is
rejected by the fileFilter before the handler runs: the response is the
unsupported-file-type error, no blob is retained and no Note record is
created (the state is unchanged). -/
theorem upload_rejects_non_pdf (req : UploadRequest) (f : FileInfo)
    (now : Nat) (st : StoreState)
    (hfile : req.file = some f) (hmime : f.mimetype ≠ applicationPdf) :
    uploadPipeline req now st = (UploadResponse.fileTypeError, st) := by
  simp [uploadPipeline, hfile, hmime]

/-- Witness for C5: a PNG payload is rejected with no state change. -/
theorem upload_rejects_non_pdf_witness :
    uploadPipeline
      { file := some
          { mimetype := "image/png".data
            originalname := "scan.png".data
            path := "uploads/1-scan.png".data }
        branch := some "Civil".data
        subject := some "Surveying".data
        topic := some "Maps".data
        description := none } 3 ⟨[], []⟩ = (UploadResponse.fileTypeError, ⟨[], []⟩) :=
  upload_rejects_non_pdf _ _ 3 ⟨[], []⟩ rfl (by decide)

/-- Claim C6: a PDF upload passing moderation, with the required fields
present, persists exactly one new Note record whose filePath is the
stored blob path with every backslash replaced by a forward slash and
whose originalName is the uploaded original filename, and responds 201
created; the blob is retained. -/
theorem upload_success_persists_note (req : UploadRequest) (f : FileInfo)
    (now : Nat) (st : StoreState) (b s t : Str)
    (hfile : req.file = some f) (hmime : f.mimetype = applicationPdf)
    (htopic : checkContentSafety req.topic = true)
    (hdesc : checkContentSafety req.description = true)
    (hb : req.branch = some b) (hs : req.subject = some s)
    (ht : req.topic = some t)
    (hbne : b ≠ []) (hsne : s ≠ []) (htne : t ≠ []) :
    uploadPipeline req now st =
      (UploadResponse.created,
        { blobs := f.path :: st.blobs
          notes :=
            { branch := b
              subject := s
              topic := t
              description := req.description
              filePath := replaceBackslash f.path
              originalName := f.originalname
              uploadDate := now } :: st.notes }) := by
  rw [ht] at htopic
  simp [uploadPipeline, uploadHandler, hfile, hmime, htopic, hdesc,
    hb, hs, ht, hbne, hsne, htne]

/-- A successful upload with a Windows-style stored path. -/
def fileC6 : FileInfo :=
  { mimetype := "application/pdf".data
    originalname := "my notes.pdf".data
    path := "uploads\\123-my-notes.pdf".data }

/-- The moderation-safe request carrying fileC6. -/
def reqC6 : UploadRequest :=
  { file := some fileC6
    branch := some "Civil".data
    subject := some "Fluid Mechanics".data
    topic := some "Bernoulli".data
    description := some "intro".data }

/-- Witness for C6: the persisted record normalizes the backslash in the
stored path and keeps the original filename. -/
theorem upload_success_persists_note_witness :
    uploadPipeline reqC6 42 ⟨[], []⟩ =
      (UploadResponse.created,
        ⟨["uploads\\123-my-notes.pdf".data],
         [{ branch := "Civil".data
            subject := "Fluid Mechanics".data
            topic := "Bernoulli".data
            description := some "intro".data
            filePath := "uploads/123-my-notes.pdf".data
            originalName := "my notes.pdf".data
            uploadDate := 42 }]⟩) := by
  rw [upload_success_persists_note reqC6 fileC6 42 ⟨[], []⟩
    "Civil".data "Fluid Mechanics".data "Bernoulli".data rfl rfl
    (by decide) (by decide) rfl rfl rfl (by decide) (by decide) (by decide)]
  decide

/-- Claim C10: moderation is applied only to topic and description: a PDF
upload whose topic and description are safe is never answered with the
moderation error, whatever the subject and branch contain. -/
theorem moderation_ignores_subject_branch (req : UploadRequest)
    (f : FileInfo) (now : Nat) (st : StoreState)
    (hfile : req.file = some f) (hmime : f.mimetype = applicationPdf)
    (htopic : checkContentSafety req.topic = true)
    (hdesc : checkContentSafety req.description = true) :
    (uploadPipeline req now st).1 ≠ UploadResponse.moderationError := by
  have hcond : (!(checkContentSafety req.topic) ||
      !(checkContentSafety req.description)) = false := by
    simp [htopic, hdesc]
  have hpipe : uploadPipeline req now st =
      uploadHandler req now { blobs := f.path :: st.blobs, notes := st.notes } := by
    simp [uploadPipeline, hfile, hmime]
  rw [hpipe]
  unfold uploadHandler
  rw [hcond, hfile]
  simp only [Bool.false_eq_true, if_false]
  rcases req.branch with _ | b
  all_goals rcases req.subject with _ | s
  all_goals rcases req.topic with _ | t
  all_goals simp
  all_goals split <;> simp

/-- The request carrying a denylisted subject and branch but safe topic
and description. -/
def reqC10 : UploadRequest :=
  { file := some
      { mimetype := "application/pdf".data
        originalname := "film.pdf".data
        path := "uploads/9-film.pdf".data }
    branch := some "Gore Studies".data
    subject := some "Kill Bill analysis".data
    topic := some "cinematography".data
    description := some "montage".data }

/-- Witness for C10: an upload whose subject and branch contain banned
keywords is not rejected by moderation. -/
theorem moderation_ignores_subject_branch_witness :
    (uploadPipeline reqC10 1 ⟨[], []⟩).1 ≠ UploadResponse.moderationError :=
  moderation_ignores_subject_branch reqC10 _ 1 ⟨[], []⟩ rfl (by decide)
    (by decide) (by decide)

/-- Reduction of the search route on a non-empty query. -/
theorem searchPipeline_cons (c : Char) (qs : Str) (branch : Option Str)
    (tq : Str → List Note) :
    searchPipeline (some (c :: qs)) branch tq =
      ({ internal := (tq (c :: qs)).take 10
         external :=
           if ((tq (c :: qs)).take 10).length < 3 then
             some (externalKnowledgeFor (c :: qs) branch)
           else none }, 1) := rfl

/-- Claim C7: a search whose query parameter is absent or empty answers
exactly with empty internal results and a null external record, and the
Note Store is never queried (the query count is 0). -/
theorem search_empty_query_short_circuit (q branch : Option Str)
    (textQuery : Str → List Note) (hq : q = none ∨ q = some []) :
    searchPipeline q branch textQuery = ({ internal := [], external := none }, 0) := by
  rcases hq with h | h <;> simp [searchPipeline, h]

/-- A sample stored note matching thermodynamics queries. -/
def noteThermo : Note :=
  { branch := "Mechanical".data
    subject := "Thermodynamics".data
    topic := "Entropy".data
    description := some "second law".data
    filePath := "uploads/2-thermo.pdf".data
    originalName := "thermo.pdf".data
    uploadDate := 10 }

/-- Witness for C7: an absent query short-circuits even over a non-empty
store. -/
theorem search_empty_query_short_circuit_witness :
    searchPipeline none (some "Civil".data) (fun _ => [noteThermo]) =
      ({ internal := [], external := none }, 0) :=
  search_empty_query_short_circuit none (some "Civil".data) _ (Or.inl rfl)

/-- Claim C8: on a non-empty query the internal result sequence holds at
most 10 Note records. -/
theorem search_internal_capped (query : Str) (branch : Option Str)
    (textQuery : Str → List Note) (hq : query ≠ []) :
    ((searchPipeline (some query) branch textQuery).1).internal.length ≤ 10 := by
  match query, hq with
  | c :: qs, _ =>
    rw [searchPipeline_cons]
    exact List.length_take_le 10 _

/-- Witness for C8: a store query answering 12 notes is capped at 10. -/
theorem search_internal_capped_witness :
    ((searchPipeline (some "heat".data) none
        (fun _ => List.replicate 12 noteThermo)).1).internal.length ≤ 10 :=
  search_internal_capped "heat".data none _ (by decide)

/-- Claim C1: on a non-empty query, fewer than 3 internal results force
the external field to be the synthesized record, whose source is External
Knowledge Base, whose title is Concept Summary: followed by the query,
and whose templated summary contains the query and the branch parameter
(the branch defaulting to engineering when absent); 3 or more internal
results force a null external field. -/
theorem search_external_fallback (query : Str) (branch : Option Str)
    (textQuery : Str → List Note) (hq : query ≠ []) :
    (((searchPipeline (some query) branch textQuery).1).internal.length < 3 →
      ((searchPipeline (some query) branch textQuery).1).external =
        some (externalKnowledgeFor query branch)) ∧
    (3 ≤ ((searchPipeline (some query) branch textQuery).1).internal.length →
      ((searchPipeline (some query) branch textQuery).1).external = none) ∧
    (externalKnowledgeFor query branch).source = "External Knowledge Base".data ∧
    (externalKnowledgeFor query branch).title = "Concept Summary: ".data ++ query ∧
    query <:+: (externalKnowledgeFor query branch).summary ∧
    branchOrDefault branch <:+: (externalKnowledgeFor query branch).summary ∧
    (branch = none → branchOrDefault branch = "engineering".data) := by
  match query, hq with
  | c :: qs, _ =>
    refine ⟨?_, ?_, rfl, rfl, ?_, ?_, fun h => by rw [h]; rfl⟩
    · intro h
      rw [searchPipeline_cons] at h ⊢
      exact if_pos h
    · intro h
      rw [searchPipeline_cons] at h ⊢
      exact if_neg (Nat.not_lt.mpr h)
    · exact ⟨summaryHead, summaryMid ++ branchOrDefault branch ++ summaryTail,
        by simp [externalKnowledgeFor, List.append_assoc]⟩
    · exact ⟨summaryHead ++ (c :: qs) ++ summaryMid, summaryTail,
        by simp [externalKnowledgeFor, List.append_assoc]⟩

/-- Witness for C1: a store holding exactly 2 thermodynamics notes makes
the search answer carry the synthesized external record. -/
theorem search_external_fallback_witness :
    ((searchPipeline (some "thermodynamics".data) none
        (fun _ => [noteThermo, noteThermo])).1).external =
      some (externalKnowledgeFor "thermodynamics".data none) :=
  (search_external_fallback "thermodynamics".data none _ (by decide)).1 (by decide)

/-- Claim C9 (amended): the listing holds at most 20 records, ordered by
non-increasing uploadDate (most recent first; ties in uploadDate are
allowed to sit adjacently, so the order is descending but not strictly
descending in general). -/
theorem listing_recent_sorted (store : List Note) :
    (listNotes store).length ≤ 20 ∧
    (listNotes store).Pairwise (fun a b => b.uploadDate ≤ a.uploadDate) := by
  constructor
  · exact List.length_take_le 20 _
  · exact List.Pairwise.sublist (List.take_sublist 20 _)
      (List.sorted_insertionSort byDateDesc store)

/-- A first note uploaded at timestamp 5. -/
def noteDup1 : Note :=
  { branch := "Computer".data
    subject := "Operating Systems".data
    topic := "Scheduling".data
    description := none
    filePath := "uploads/5-a.pdf".data
    originalName := "a.pdf".data
    uploadDate := 5 }

/-- A second, distinct note also uploaded at timestamp 5. -/
def noteDup2 : Note :=
  { branch := "Computer".data
    subject := "Networks".data
    topic := "Congestion control".data
    description := none
    filePath := "uploads/5-b.pdf".data
    originalName := "b.pdf".data
    uploadDate := 5 }

/-- Counterexample for C9 as stated: two notes sharing an uploadDate both
appear in the listing, so the order is not strictly descending. -/
theorem listing_strict_desc_counterexample :
    (listNotes [noteDup1, noteDup2]).length = 2 ∧
    ¬ (listNotes [noteDup1, noteDup2]).Pairwise
        (fun a b => b.uploadDate < a.uploadDate) := by
  decide

end MitNotes
